import Mathlib

/-!
Shallow embedding of `simkl_mps/tray_base.py` (class `TrayAppBase`) and proofs
about its control surface: status updates, start/stop of monitoring, backlog
processing, and the watch-completion-threshold setting paths.

Side effects are made observable in the state: `show_notification` appends to a
notification log, `update_icon` bumps a counter, and calls to the scrobbler's
`stop()` bump a counter.  Collaborators that live outside this file
(`SimklScrobbler`, the settings store) are embedded by the fields of theirs
that `tray_base.py` actually reads or writes.
-/

namespace SimklMps

/-- Modelled from the spec: `DEFAULT_THRESHOLD` is imported from
`simkl_mps.config_manager`, which is not part of this excerpt; the spec states
the threshold setting is an "integer percent in `[1,100]`, default `80`". -/
def DEFAULT_THRESHOLD : Int := 80

/-- The settings store as used by `tray_base.py`: the only key ever read or
written there is `watch_completion_threshold`, so the store is embedded as the
optional stored value of that key (`none` = key absent). -/
structure SettingsStore where
  watch_completion_threshold : Option Int
deriving DecidableEq

/-- Embedding of `get_setting('watch_completion_threshold', dflt)`: the stored
value if present, else the supplied default. -/
def get_setting (s : SettingsStore) (dflt : Int) : Int :=
  s.watch_completion_threshold.getD dflt

/-- Embedding of `set_setting('watch_completion_threshold', v)`. -/
def set_setting (s : SettingsStore) (v : Int) : SettingsStore :=
  { s with watch_completion_threshold := some v }

/-- The parts of a `SimklScrobbler` instance that `tray_base.py` observes:
`scrobbler.monitor.running` and
`scrobbler.monitor.scrobbler.completion_threshold`. -/
structure Scrobbler where
  monitor_running : Bool
  completion_threshold : Int
deriving DecidableEq

/-- Observable state of `TrayAppBase` plus an effect log: `notifications`
records every `show_notification(title, message)` call in order, `icon_updates`
counts `update_icon()` calls, and `scrobbler_stop_calls` counts
`scrobbler.stop()` calls. -/
structure TrayState where
  scrobbler : Option Scrobbler
  monitoring_active : Bool
  status : String
  status_details : String
  last_scrobbled : Option String
  is_first_run : Bool
  settings : SettingsStore
  notifications : List (String × String)
  icon_updates : Nat
  scrobbler_stop_calls : Nat
deriving DecidableEq

/-- Effect of `self.show_notification(title, message)`: append to the log. -/
def show_notification (st : TrayState) (title message : String) : TrayState :=
  { st with notifications := st.notifications ++ [(title, message)] }

/-- Effect of `self.update_icon()`: bump the refresh counter. -/
def update_icon (st : TrayState) : TrayState :=
  { st with icon_updates := st.icon_updates + 1 }

/-- Python truthiness of the optional string argument `last_scrobbled`:
`None` and the empty string are falsy. -/
def strTruthy : Option String → Bool
  | none => false
  | some s => !(s == "")

/-- Embedding of `TrayAppBase.update_status(new_status, details, last_scrobbled)`
(lines 135-143): if any of the three differs from the stored value, overwrite
`status` and `status_details`, overwrite `last_scrobbled` only when the argument
is truthy, and refresh the icon; otherwise do nothing. -/
def update_status (st : TrayState) (new_status details : String)
    (last_scrobbled : Option String) : TrayState :=
  if new_status ≠ st.status ∨ details ≠ st.status_details ∨
      last_scrobbled ≠ st.last_scrobbled then
    let st1 := { st with status := new_status, status_details := details }
    let st2 := if strTruthy last_scrobbled then
                 { st1 with last_scrobbled := last_scrobbled }
               else st1
    update_icon st2
  else st

/-- Embedding of the `status_map` lookup in `TrayAppBase.get_status_text`. -/
def status_map_text (s : String) : String :=
  if s = "running" then "Running"
  else if s = "paused" then "Paused"
  else if s = "stopped" then "Stopped"
  else if s = "error" then "Error"
  else "Unknown"

/-- Embedding of `TrayAppBase.get_status_text` (lines 120-133). -/
def get_status_text (st : TrayState) : String :=
  let t := status_map_text st.status
  let t2 := if st.status_details ≠ "" then t ++ " - " ++ st.status_details else t
  match st.last_scrobbled with
  | some l => if l ≠ "" then t2 ++ "\nLast: " ++ l else t2
  | none => t2

/-- Outcome of `self.scrobbler.start()` inside the `try` of
`start_monitoring`: returned `True`, returned `False`, or raised an exception
whose `str()` is `msg`. -/
inductive StartOutcome where
  | ok
  | failed
  | raises (msg : String)
deriving DecidableEq

/-- Behaviour of the scrobbler collaborator during one `start_monitoring` call:
the result of `initialize()` on a freshly constructed scrobbler, the fresh
scrobbler's observable fields, and the outcome of `start()`. -/
structure StartBehavior where
  init_ok : Bool
  fresh : Scrobbler
  start : StartOutcome
deriving DecidableEq

/-- Embedding of the body of the `try` block of
`TrayAppBase.start_monitoring` (lines 423-457): call `scrobbler.start()` and
handle success, failure and exception. -/
def start_attempt (b : StartBehavior) (is_manual : Bool) (st : TrayState) :
    TrayState × Bool :=
  match b.start with
  | StartOutcome.ok =>
      let st1 := { st with monitoring_active := true }
      let st2 := update_status st1 "running" "" none
      let st3 := if st2.is_first_run || is_manual then
                   show_notification st2 "simkl-mps" "Media monitoring started"
                 else st2
      (st3, true)
  | StartOutcome.failed =>
      let st1 := { st with monitoring_active := false }
      let st2 := update_status st1 "error" "Failed to start" none
      (show_notification st2 "simkl-mps Error" "Failed to start monitoring", false)
  | StartOutcome.raises msg =>
      let st1 := { st with monitoring_active := false }
      let st2 := update_status st1 "error" msg none
      (show_notification st2 "simkl-mps Error"
        ("Error starting monitoring: " ++ msg), false)

/-- Embedding of lines 403-405 of `start_monitoring`: when a scrobbler with a
monitor exists and the monitor is not running, clear `monitoring_active`. -/
def resync_monitor (st : TrayState) : TrayState :=
  match st.scrobbler with
  | some sc => if sc.monitor_running then st
               else { st with monitoring_active := false }
  | none => st

/-- Embedding of `TrayAppBase.start_monitoring` (lines 398-458): first resync
`monitoring_active` with `scrobbler.monitor.running`; if still active, return
`True` untouched; otherwise construct and initialize a scrobbler when absent
(initialize failure notifies and returns `False`) and then attempt `start()`.
`is_manual` embeds `_ is not None`. -/
def start_monitoring (b : StartBehavior) (is_manual : Bool) (st : TrayState) :
    TrayState × Bool :=
  let st1 := resync_monitor st
  if st1.monitoring_active then (st1, true)
  else
    match st1.scrobbler with
    | none =>
        let st2 := { st1 with scrobbler := some b.fresh }
        if b.init_ok then start_attempt b is_manual st2
        else
          let st3 := update_status st2 "error" "Failed to initialize" none
          let st4 := show_notification st3 "simkl-mps Error"
            "Failed to initialize. Check your credentials."
          ({ st4 with monitoring_active := false }, false)
    | some _ => start_attempt b is_manual st1

/-- Embedding of `TrayAppBase.stop_monitoring` (lines 460-477): when active,
call `scrobbler.stop()` if a scrobbler exists, clear the flag, set status
`"stopped"`, notify, and return `True`; otherwise do nothing and return
`False`. -/
def stop_monitoring (st : TrayState) : TrayState × Bool :=
  if st.monitoring_active then
    let st1 :=
      match st.scrobbler with
      | some _ => { st with scrobbler_stop_calls := st.scrobbler_stop_calls + 1 }
      | none => st
    let st2 := { st1 with monitoring_active := false }
    let st3 := update_status st2 "stopped" "" none
    (show_notification st3 "simkl-mps" "Media monitoring stopped", true)
  else (st, false)

/-- Result of `self.scrobbler.monitor.scrobbler.process_backlog()` as seen by
the tray handler: a dictionary (fields are the values of
`result.get('processed', 0)`, `result.get('attempted', 0)`,
`result.get('failed', False)`), a legacy integer, or a raised exception. -/
inductive BacklogResult where
  | dict (processed attempted : Int) (failed : Bool)
  | int (n : Int)
  | raises (msg : String)
deriving DecidableEq

/-- Embedding of the `_process` worker body of `TrayAppBase.process_backlog`
(lines 481-526): dictionary results produce one of three messages, legacy
integer results one of two, and an exception sets status `"error"` (empty
details) and notifies of the failure. -/
def process_backlog_run (result : BacklogResult) (st : TrayState) : TrayState :=
  match result with
  | BacklogResult.dict processed attempted failed =>
      if 0 < processed then
        show_notification st "simkl-mps"
          ("Processed " ++ toString processed ++ " of " ++ toString attempted
            ++ " backlog items")
      else if 0 < attempted ∧ failed = true then
        show_notification st "simkl-mps"
          ("No backlog items processed successfully. " ++ toString attempted
            ++ " items will be retried later.")
      else
        show_notification st "simkl-mps" "No backlog items to process"
  | BacklogResult.int n =>
      if 0 < n then
        show_notification st "simkl-mps"
          ("Processed " ++ toString n ++ " backlog items")
      else
        show_notification st "simkl-mps" "No backlog items to process"
  | BacklogResult.raises _ =>
      show_notification (update_status st "error" "" none)
        "simkl-mps Error" "Failed to process backlog"

/-- Embedding of `TrayAppBase._apply_threshold_change` (lines 532-566): a
non-`None` value different from the current setting is persisted, a
"Settings Updated" notification is shown, the running scrobbler's
`completion_threshold` is updated when reachable, and the icon is refreshed;
a `None` value or an unchanged value only refreshes the icon. -/
def apply_threshold_change (new_threshold : Option Int) (st : TrayState) :
    TrayState :=
  let current := get_setting st.settings DEFAULT_THRESHOLD
  match new_threshold with
  | some n =>
      if n ≠ current then
        let st1 := { st with settings := set_setting st.settings n }
        let st2 := show_notification st1 "Settings Updated"
          ("Watch threshold set to " ++ toString n ++ "%")
        let st3 :=
          match st2.scrobbler with
          | some sc =>
              { st2 with scrobbler := some { sc with completion_threshold := n } }
          | none => st2
        update_icon st3
      else update_icon st
  | none => update_icon st

/-- Embedding of `TrayAppBase._set_preset_threshold` (lines 568-576): apply
the preset only when it differs from the current setting. -/
def set_preset_threshold (threshold_value : Int) (st : TrayState) : TrayState :=
  let current := get_setting st.settings DEFAULT_THRESHOLD
  if threshold_value ≠ current then apply_threshold_change (some threshold_value) st
  else st

/-- The preset threshold values offered by
`TrayAppBase._build_pystray_menu_items` (lines 667-673): 65, 80 (default), 90. -/
def preset_threshold_values : List Int := [65, 80, 90]

/-- The bound (in seconds) of `result_queue.get(timeout=60)` in
`_process_result` inside `set_custom_watch_threshold` (line 612). -/
def QUEUE_GET_TIMEOUT_SECONDS : Nat := 60

/-- What the consumer `_process_result` observes on its one-shot queue:
either a value arrived within the bound (the dialog's result, possibly `None`),
or the bounded wait timed out (`queue.Empty`). -/
inductive QueueOutcome where
  | value (v : Option Int)
  | timeout
deriving DecidableEq

/-- Embedding of `_process_result` inside
`TrayAppBase.set_custom_watch_threshold` (lines 606-623): a received value is
applied via `_apply_threshold_change`; a timeout notifies the user and applies
`None`. -/
def process_result (q : QueueOutcome) (st : TrayState) : TrayState :=
  match q with
  | QueueOutcome.value v => apply_threshold_change v st
  | QueueOutcome.timeout =>
      apply_threshold_change none
        (show_notification st "Timeout" "Custom threshold dialog timed out.")

/-- Embedding of `_ask_in_thread` inside `set_custom_watch_threshold`
(lines 585-604): the value put on the queue is the dialog's result, or `None`
when the dialog raised. -/
def ask_in_thread_value (dialog : Except String (Option Int)) : Option Int :=
  match dialog with
  | Except.ok v => v
  | Except.error _ => none

/-- Tray state right after `TrayAppBase.__init__` (lines 80-91), with an
empty effect log and an empty settings store. -/
def init_state : TrayState :=
  { scrobbler := none
    monitoring_active := false
    status := "stopped"
    status_details := ""
    last_scrobbled := none
    is_first_run := false
    settings := { watch_completion_threshold := none }
    notifications := []
    icon_updates := 0
    scrobbler_stop_calls := 0 }

/-- A state in which monitoring is active and the monitor reports running. -/
def running_state : TrayState :=
  { init_state with
    monitoring_active := true
    status := "running"
    scrobbler := some { monitor_running := true, completion_threshold := 80 } }

/-! ### Helper lemmas on the effect primitives -/

@[simp] lemma show_notification_status (st : TrayState) (t m : String) :
    (show_notification st t m).status = st.status := rfl

@[simp] lemma show_notification_details (st : TrayState) (t m : String) :
    (show_notification st t m).status_details = st.status_details := rfl

@[simp] lemma show_notification_settings (st : TrayState) (t m : String) :
    (show_notification st t m).settings = st.settings := rfl

@[simp] lemma show_notification_scrobbler (st : TrayState) (t m : String) :
    (show_notification st t m).scrobbler = st.scrobbler := rfl

@[simp] lemma show_notification_icon (st : TrayState) (t m : String) :
    (show_notification st t m).icon_updates = st.icon_updates := rfl

@[simp] lemma show_notification_last (st : TrayState) (t m : String) :
    (show_notification st t m).last_scrobbled = st.last_scrobbled := rfl

@[simp] lemma show_notification_log (st : TrayState) (t m : String) :
    (show_notification st t m).notifications = st.notifications ++ [(t, m)] := rfl

@[simp] lemma show_notification_active (st : TrayState) (t m : String) :
    (show_notification st t m).monitoring_active = st.monitoring_active := rfl

@[simp] lemma update_icon_active (st : TrayState) :
    (update_icon st).monitoring_active = st.monitoring_active := rfl

@[simp] lemma update_icon_status (st : TrayState) :
    (update_icon st).status = st.status := rfl

@[simp] lemma update_icon_details (st : TrayState) :
    (update_icon st).status_details = st.status_details := rfl

@[simp] lemma update_icon_settings (st : TrayState) :
    (update_icon st).settings = st.settings := rfl

@[simp] lemma update_icon_scrobbler (st : TrayState) :
    (update_icon st).scrobbler = st.scrobbler := rfl

@[simp] lemma update_icon_last (st : TrayState) :
    (update_icon st).last_scrobbled = st.last_scrobbled := rfl

@[simp] lemma update_icon_log (st : TrayState) :
    (update_icon st).notifications = st.notifications := rfl

@[simp] lemma update_icon_count (st : TrayState) :
    (update_icon st).icon_updates = st.icon_updates + 1 := rfl

lemma update_status_settings (st : TrayState) (ns d : String)
    (ls : Option String) : (update_status st ns d ls).settings = st.settings := by
  unfold update_status
  split
  · split <;> rfl
  · rfl

lemma update_status_scrobbler (st : TrayState) (ns d : String)
    (ls : Option String) : (update_status st ns d ls).scrobbler = st.scrobbler := by
  unfold update_status
  split
  · split <;> rfl
  · rfl

lemma update_status_log (st : TrayState) (ns d : String) (ls : Option String) :
    (update_status st ns d ls).notifications = st.notifications := by
  unfold update_status
  split
  · split <;> rfl
  · rfl

lemma update_status_status (st : TrayState) (ns d : String) (ls : Option String) :
    (update_status st ns d ls).status = ns ∨
    (update_status st ns d ls).status = st.status := by
  unfold update_status
  split
  · left
    split <;> rfl
  · right
    rfl

lemma update_status_last_of_falsy (st : TrayState) (ns d : String)
    (ls : Option String) (h : strTruthy ls = false) :
    (update_status st ns d ls).last_scrobbled = st.last_scrobbled := by
  unfold update_status
  split
  · simp [h]
  · rfl

lemma update_status_active (st : TrayState) (ns d : String) (ls : Option String) :
    (update_status st ns d ls).monitoring_active = st.monitoring_active := by
  unfold update_status
  split
  · split <;> rfl
  · rfl

lemma update_status_status_forced (s : TrayState) (ns d : String) :
    (update_status s ns d none).status = ns := by
  unfold update_status
  split
  · simp [strTruthy]
  · rename_i hcond
    push_neg at hcond
    exact hcond.1.symm

lemma update_status_details_forced (s : TrayState) (ns d : String) :
    (update_status s ns d none).status_details = d := by
  unfold update_status
  split
  · simp [strTruthy]
  · rename_i hcond
    push_neg at hcond
    exact hcond.2.1.symm

lemma resync_monitor_scrobbler (st : TrayState) :
    (resync_monitor st).scrobbler = st.scrobbler := by
  unfold resync_monitor
  rcases h : st.scrobbler with _ | sc
  · exact h
  · dsimp only
    split
    · exact h
    · rfl

lemma resync_monitor_status (st : TrayState) :
    (resync_monitor st).status = st.status := by
  unfold resync_monitor
  rcases h : st.scrobbler with _ | sc
  · rfl
  · dsimp only
    split <;> rfl

lemma resync_monitor_log (st : TrayState) :
    (resync_monitor st).notifications = st.notifications := by
  unfold resync_monitor
  rcases h : st.scrobbler with _ | sc
  · rfl
  · dsimp only
    split <;> rfl

lemma resync_monitor_active_false (st : TrayState)
    (h : st.monitoring_active = false) :
    (resync_monitor st).monitoring_active = false := by
  unfold resync_monitor
  rcases h2 : st.scrobbler with _ | sc
  · exact h
  · dsimp only
    split
    · exact h
    · rfl

lemma start_attempt_not_ok (b : StartBehavior) (im : Bool) (st : TrayState)
    (h : b.start ≠ StartOutcome.ok) : (start_attempt b im st).2 = false := by
  rcases hb : b.start with _ | _ | m
  · exact absurd hb h
  · simp [start_attempt, hb]
  · simp [start_attempt, hb]

lemma start_attempt_status (b : StartBehavior) (im : Bool) (st : TrayState) :
    (start_attempt b im st).1.status = "running" ∨
    (start_attempt b im st).1.status = "error" := by
  rcases hb : b.start with _ | _ | m
  · left
    simp only [start_attempt, hb]
    split <;> simp [update_status_status_forced]
  · right
    simp [start_attempt, hb, update_status_status_forced]
  · right
    simp [start_attempt, hb, update_status_status_forced]

lemma stop_monitoring_inactive (st : TrayState) :
    (stop_monitoring st).1.monitoring_active = false := by
  unfold stop_monitoring
  split
  · split <;> simp [update_status_active]
  · rename_i h
    simpa using h

/-! ### Claim theorems -/

/-- C1: for every dictionary result of the engine's `process_backlog`, the
tray handler distinguishes three outcomes: `processed > 0` reports
"Processed {processed} of {attempted} backlog items"; otherwise
`attempted > 0` with `failed` true reports that no items were processed
successfully and `{attempted}` items will be retried later; otherwise it
reports "No backlog items to process". -/
theorem c1_backlog_dict_report (p a : Int) (f : Bool) (st : TrayState) :
    (0 < p →
      process_backlog_run (BacklogResult.dict p a f) st =
        show_notification st "simkl-mps"
          ("Processed " ++ toString p ++ " of " ++ toString a
            ++ " backlog items")) ∧
    (p ≤ 0 → 0 < a → f = true →
      process_backlog_run (BacklogResult.dict p a f) st =
        show_notification st "simkl-mps"
          ("No backlog items processed successfully. " ++ toString a
            ++ " items will be retried later.")) ∧
    (p ≤ 0 → ¬(0 < a ∧ f = true) →
      process_backlog_run (BacklogResult.dict p a f) st =
        show_notification st "simkl-mps" "No backlog items to process") := by
  refine ⟨?_, ?_, ?_⟩
  · intro hp
    simp [process_backlog_run, hp]
  · intro hp ha hf
    simp [process_backlog_run, not_lt.mpr hp, ha, hf]
  · intro hp hn
    simp [process_backlog_run, not_lt.mpr hp, hn]

/-- Witness for C1 at the dictionary result `{processed: 3, attempted: 5,
failed: true}`. -/
theorem c1_backlog_dict_report_witness :
    process_backlog_run (BacklogResult.dict 3 5 true) init_state =
      show_notification init_state "simkl-mps"
        ("Processed " ++ toString (3 : Int) ++ " of " ++ toString (5 : Int)
          ++ " backlog items") :=
  (c1_backlog_dict_report 3 5 true init_state).1 (by decide)

/-- C8: the tray handler also accepts the legacy integer backlog result `n`:
it reports "Processed {n} backlog items" when `n > 0` and
"No backlog items to process" when `n ≤ 0`. -/
theorem c8_backlog_int_report (n : Int) (st : TrayState) :
    (0 < n →
      process_backlog_run (BacklogResult.int n) st =
        show_notification st "simkl-mps"
          ("Processed " ++ toString n ++ " backlog items")) ∧
    (n ≤ 0 →
      process_backlog_run (BacklogResult.int n) st =
        show_notification st "simkl-mps" "No backlog items to process") := by
  constructor
  · intro hn
    simp [process_backlog_run, hn]
  · intro hn
    simp [process_backlog_run, not_lt.mpr hn]

/-- Witness for C8 at the legacy integer result `2`. -/
theorem c8_backlog_int_report_witness :
    process_backlog_run (BacklogResult.int 2) init_state =
      show_notification init_state "simkl-mps"
        ("Processed " ++ toString (2 : Int) ++ " backlog items") :=
  (c8_backlog_int_report 2 init_state).1 (by decide)

/-- C10: `update_status` never clears the last-scrobbled record: the stored
`last_scrobbled` is overwritten only when the argument is truthy (so passing
`None` preserves the previous value), and when the new status, details and
last-scrobbled all equal the current values the call changes no state (in
particular performs no icon update). -/
theorem c10_update_status_frame (st : TrayState) (ns d : String)
    (ls : Option String) :
    (strTruthy ls = false →
      (update_status st ns d ls).last_scrobbled = st.last_scrobbled) ∧
    (ns = st.status → d = st.status_details → ls = st.last_scrobbled →
      update_status st ns d ls = st) := by
  constructor
  · exact update_status_last_of_falsy st ns d ls
  · intro h1 h2 h3
    subst h1
    subst h2
    subst h3
    simp [update_status]

/-- Witness for C10 at the initial state with an all-equal no-op call. -/
theorem c10_update_status_frame_witness :
    (update_status init_state "stopped" "" none).last_scrobbled =
        init_state.last_scrobbled ∧
    update_status init_state "stopped" "" none = init_state :=
  ⟨(c10_update_status_frame init_state "stopped" "" none).1 rfl,
   (c10_update_status_frame init_state "stopped" "" none).2 rfl rfl rfl⟩

/-- C7: stopping monitoring is idempotent and safe when not running: from any
state with monitoring inactive, `stop_monitoring` changes no state (no
scrobbler stop, no status change, no notification) and returns `False`, and a
second stop after any stop equals the single stop. -/
theorem c7_stop_idempotent (st : TrayState) :
    (st.monitoring_active = false → stop_monitoring st = (st, false)) ∧
    stop_monitoring (stop_monitoring st).1 = ((stop_monitoring st).1, false) := by
  have hinact : ∀ s : TrayState, s.monitoring_active = false →
      stop_monitoring s = (s, false) := by
    intro s hs
    simp [stop_monitoring, hs]
  exact ⟨hinact st, hinact _ (stop_monitoring_inactive st)⟩

/-- Witness for C7 at the initial (inactive) state. -/
theorem c7_stop_idempotent_witness :
    stop_monitoring init_state = (init_state, false) :=
  (c7_stop_idempotent init_state).1 rfl

/-- C2: when the custom-threshold handoff channel times out (the consumer's
one-shot queue wait is bounded by 60 seconds), the timeout is an explicit
"no answer" outcome: the consumer notifies the user of the timeout and applies
a `None` threshold change, which leaves the stored threshold (and the
scrobbler and status) unmodified; the handler is a total function of the
outcome, so no error propagates to the caller. -/
theorem c2_timeout_no_answer (st : TrayState) :
    QUEUE_GET_TIMEOUT_SECONDS = 60 ∧
    (process_result QueueOutcome.timeout st).settings = st.settings ∧
    (process_result QueueOutcome.timeout st).scrobbler = st.scrobbler ∧
    (process_result QueueOutcome.timeout st).status = st.status ∧
    (process_result QueueOutcome.timeout st).notifications =
      st.notifications ++ [("Timeout", "Custom threshold dialog timed out.")] ∧
    (process_result QueueOutcome.timeout st).icon_updates =
      st.icon_updates + 1 := by
  refine ⟨rfl, ?_, ?_, ?_, ?_, ?_⟩ <;>
    simp [process_result, apply_threshold_change]

/-- C9: applying a threshold change with `None` (dialog cancelled, errored or
timed out) or with a value equal to the currently stored threshold leaves the
settings store unchanged, shows no notification at all (in particular no
"Settings Updated"), and does not touch the scrobbler's
`completion_threshold`; and every branch of `_apply_threshold_change`,
including these no-op branches, performs exactly one icon/menu refresh. -/
theorem c9_threshold_frame (st : TrayState) (v : Option Int) :
    (apply_threshold_change v st).icon_updates = st.icon_updates + 1 ∧
    (v = none ∨ v = some (get_setting st.settings DEFAULT_THRESHOLD) →
      (apply_threshold_change v st).settings = st.settings ∧
      (apply_threshold_change v st).scrobbler = st.scrobbler ∧
      (apply_threshold_change v st).notifications = st.notifications) := by
  constructor
  · rcases v with _ | n
    · simp [apply_threshold_change]
    · unfold apply_threshold_change
      dsimp only
      split
      · split <;> simp
      · simp
  · intro hv
    rcases hv with hv | hv <;> subst hv <;>
      refine ⟨?_, ?_, ?_⟩ <;> simp [apply_threshold_change]

/-- Witness for C9 at the initial state with a `None` change. -/
theorem c9_threshold_frame_witness :
    (apply_threshold_change none init_state).icon_updates =
        init_state.icon_updates + 1 ∧
    (apply_threshold_change none init_state).settings = init_state.settings ∧
    (apply_threshold_change none init_state).scrobbler = init_state.scrobbler ∧
    (apply_threshold_change none init_state).notifications =
      init_state.notifications :=
  ⟨(c9_threshold_frame init_state none).1,
   ((c9_threshold_frame init_state none).2 (Or.inl rfl)).1,
   ((c9_threshold_frame init_state none).2 (Or.inl rfl)).2.1,
   ((c9_threshold_frame init_state none).2 (Or.inl rfl)).2.2⟩

/-- A scrobbler behaviour in which fresh initialization and `start()` both
succeed. -/
def ok_behavior : StartBehavior :=
  { init_ok := true
    fresh := { monitor_running := true, completion_threshold := 80 }
    start := StartOutcome.ok }

/-- A scrobbler behaviour in which fresh initialization fails (the
credentials check). -/
def fail_init_behavior : StartBehavior :=
  { init_ok := false
    fresh := { monitor_running := false, completion_threshold := 80 }
    start := StartOutcome.ok }

/-- A scrobbler behaviour in which initialization succeeds but `start()`
returns `False`. -/
def fail_start_behavior : StartBehavior :=
  { init_ok := true
    fresh := { monitor_running := false, completion_threshold := 80 }
    start := StartOutcome.failed }

/-- Counterexample to C4 as stated: from a state in which monitoring is
already active (and the monitor reports running), a further
`start_monitoring` call returns `True`, not `False`. -/
theorem c4_counterexample :
    running_state.monitoring_active = true ∧
    (start_monitoring ok_behavior true running_state).2 = true := by
  constructor <;> rfl

/-- C4 amended: starting when monitoring is already active (with any attached
monitor reporting running) is a no-op that returns `True`; a start call
returns `False` when initialization of a fresh scrobbler (the credentials
check) fails, and when the scrobbler's `start()` does not succeed. -/
theorem c4_amended_start (b : StartBehavior) (im : Bool) (st : TrayState)
    (hact : st.monitoring_active = true)
    (hrun : ∀ sc, st.scrobbler = some sc → sc.monitor_running = true) :
    start_monitoring b im st = (st, true) ∧
    (∀ s2 : TrayState, s2.monitoring_active = false → s2.scrobbler = none →
      b.init_ok = false → (start_monitoring b im s2).2 = false) ∧
    (∀ s2 : TrayState, s2.monitoring_active = false →
      b.start ≠ StartOutcome.ok → (start_monitoring b im s2).2 = false) := by
  refine ⟨?_, ?_, ?_⟩
  · have hres : resync_monitor st = st := by
      unfold resync_monitor
      rcases h : st.scrobbler with _ | sc
      · rfl
      · dsimp only
        rw [hrun sc h]
        simp
    simp [start_monitoring, hres, hact]
  · intro s2 h2 h3 h4
    have hres : resync_monitor s2 = s2 := by
      unfold resync_monitor
      rw [h3]
    simp [start_monitoring, hres, h2, h3, h4]
  · intro s2 h2 h5
    have hra : (resync_monitor s2).monitoring_active = false :=
      resync_monitor_active_false s2 h2
    unfold start_monitoring
    dsimp only
    rw [if_neg (by simp [hra])]
    split
    · split
      · exact start_attempt_not_ok b im _ h5
      · rfl
    · exact start_attempt_not_ok b im _ h5

/-- Witness for C4 amended: a no-op start from the running state, a failed
start from a failed initialization, and a failed start from a failed
`start()`. -/
theorem c4_amended_start_witness :
    start_monitoring ok_behavior true running_state = (running_state, true) ∧
    (start_monitoring fail_init_behavior true init_state).2 = false ∧
    (start_monitoring fail_start_behavior true init_state).2 = false := by
  have hrun : ∀ sc, running_state.scrobbler = some sc →
      sc.monitor_running = true := by
    intro sc h
    cases h
    rfl
  exact ⟨(c4_amended_start ok_behavior true running_state rfl hrun).1,
    (c4_amended_start fail_init_behavior true running_state rfl hrun).2.1
      init_state rfl rfl rfl,
    (c4_amended_start fail_start_behavior true running_state rfl hrun).2.2
      init_state rfl (by decide)⟩

/-- A scrobbler behaviour in which initialization succeeds but `start()`
raises an exception whose text is "boom". -/
def raise_start_behavior : StartBehavior :=
  { init_ok := true
    fresh := { monitor_running := false, completion_threshold := 80 }
    start := StartOutcome.raises "boom" }

lemma start_attempt_failed_proj (b : StartBehavior) (im : Bool)
    (s : TrayState) (hb : b.start = StartOutcome.failed) :
    (start_attempt b im s).1.status = "error" ∧
    (start_attempt b im s).1.status_details = "Failed to start" ∧
    (start_attempt b im s).1.notifications =
      s.notifications ++ [("simkl-mps Error", "Failed to start monitoring")] := by
  simp [start_attempt, hb, update_status_status_forced,
    update_status_details_forced, update_status_log]

lemma start_attempt_raises_proj (b : StartBehavior) (im : Bool)
    (s : TrayState) (m : String) (hb : b.start = StartOutcome.raises m) :
    (start_attempt b im s).1.status = "error" ∧
    (start_attempt b im s).1.status_details = m ∧
    (start_attempt b im s).1.notifications =
      s.notifications ++
        [("simkl-mps Error", "Error starting monitoring: " ++ m)] := by
  simp [start_attempt, hb, update_status_status_forced,
    update_status_details_forced, update_status_log]

lemma start_monitoring_eq_attempt_some (b : StartBehavior) (im : Bool)
    (st : TrayState) (h : st.monitoring_active = false) (sc : Scrobbler)
    (hsc : st.scrobbler = some sc) :
    start_monitoring b im st = start_attempt b im (resync_monitor st) := by
  unfold start_monitoring
  dsimp only
  rw [if_neg (by simp [resync_monitor_active_false st h])]
  have h2 : (resync_monitor st).scrobbler = some sc := by
    rw [resync_monitor_scrobbler, hsc]
  split
  · rename_i heq
    rw [h2] at heq
    exact Option.noConfusion heq
  · rfl

lemma start_monitoring_eq_attempt_none (b : StartBehavior) (im : Bool)
    (st : TrayState) (h : st.monitoring_active = false)
    (hsc : st.scrobbler = none) (hi : b.init_ok = true) :
    start_monitoring b im st =
      start_attempt b im { st with scrobbler := some b.fresh } := by
  have hres : resync_monitor st = st := by
    unfold resync_monitor
    rw [hsc]
  unfold start_monitoring
  dsimp only
  rw [hres, if_neg (by simp [h]), hsc]
  dsimp only
  rw [hi]
  simp

/-- Counterexample to C5 as stated: the backlog-exception failure path
updates the status to "error" with an empty detail string, not a non-empty
one. -/
theorem c5_counterexample :
    (process_backlog_run (BacklogResult.raises "boom") running_state).status
      = "error" ∧
    (process_backlog_run (BacklogResult.raises "boom")
      running_state).status_details = "" := by
  constructor <;> rfl

/-- C5 amended: every failure path of the tray control surface produces
exactly one user-visible notification and updates the status to "error";
the initialization-failure and start-failure paths carry the non-empty
details "Failed to initialize" and "Failed to start", the start-exception
path carries the exception text, and the backlog-exception path carries an
empty detail string. -/
theorem c5_amended_failure_paths (b : StartBehavior) (im : Bool)
    (st : TrayState) (m : String) (h : st.monitoring_active = false) :
    (st.scrobbler = none → b.init_ok = false →
      (start_monitoring b im st).1.status = "error" ∧
      (start_monitoring b im st).1.status_details = "Failed to initialize" ∧
      (start_monitoring b im st).1.notifications = st.notifications ++
        [("simkl-mps Error", "Failed to initialize. Check your credentials.")]) ∧
    ((st.scrobbler ≠ none ∨ b.init_ok = true) →
      b.start = StartOutcome.failed →
      (start_monitoring b im st).1.status = "error" ∧
      (start_monitoring b im st).1.status_details = "Failed to start" ∧
      (start_monitoring b im st).1.notifications = st.notifications ++
        [("simkl-mps Error", "Failed to start monitoring")]) ∧
    ((st.scrobbler ≠ none ∨ b.init_ok = true) →
      b.start = StartOutcome.raises m →
      (start_monitoring b im st).1.status = "error" ∧
      (start_monitoring b im st).1.status_details = m ∧
      (start_monitoring b im st).1.notifications = st.notifications ++
        [("simkl-mps Error", "Error starting monitoring: " ++ m)]) ∧
    ((process_backlog_run (BacklogResult.raises m) st).status = "error" ∧
      (process_backlog_run (BacklogResult.raises m) st).status_details = "" ∧
      (process_backlog_run (BacklogResult.raises m) st).notifications =
        st.notifications ++
          [("simkl-mps Error", "Failed to process backlog")]) := by
  refine ⟨?_, ?_, ?_, ?_⟩
  · intro hsc hi
    have hres : resync_monitor st = st := by
      unfold resync_monitor
      rw [hsc]
    simp [start_monitoring, hres, h, hsc, hi, update_status_status_forced,
      update_status_details_forced, update_status_log]
  · intro hsc hb
    rcases hcase : st.scrobbler with _ | sc
    · rcases hsc with hne | hi
      · exact absurd hcase hne
      · rw [start_monitoring_eq_attempt_none b im st h hcase hi]
        simpa using
          start_attempt_failed_proj b im { st with scrobbler := some b.fresh } hb
    · rw [start_monitoring_eq_attempt_some b im st h sc hcase]
      have hp := start_attempt_failed_proj b im (resync_monitor st) hb
      rw [resync_monitor_log] at hp
      exact hp
  · intro hsc hb
    rcases hcase : st.scrobbler with _ | sc
    · rcases hsc with hne | hi
      · exact absurd hcase hne
      · rw [start_monitoring_eq_attempt_none b im st h hcase hi]
        simpa using
          start_attempt_raises_proj b im { st with scrobbler := some b.fresh } m hb
    · rw [start_monitoring_eq_attempt_some b im st h sc hcase]
      have hp := start_attempt_raises_proj b im (resync_monitor st) m hb
      rw [resync_monitor_log] at hp
      exact hp
  · refine ⟨?_, ?_, ?_⟩ <;>
      simp [process_backlog_run, update_status_status_forced,
        update_status_details_forced, update_status_log]

/-- Witness for C5 amended, exercising all four failure paths from concrete
states. -/
theorem c5_amended_failure_paths_witness :
    (start_monitoring fail_init_behavior true init_state).1.status_details =
      "Failed to initialize" ∧
    (start_monitoring fail_start_behavior true init_state).1.status_details =
      "Failed to start" ∧
    (start_monitoring raise_start_behavior true init_state).1.status_details =
      "boom" ∧
    (process_backlog_run (BacklogResult.raises "boom")
        init_state).notifications =
      init_state.notifications ++
        [("simkl-mps Error", "Failed to process backlog")] :=
  ⟨((c5_amended_failure_paths fail_init_behavior true init_state "boom"
      rfl).1 rfl rfl).2.1,
   ((c5_amended_failure_paths fail_start_behavior true init_state "boom"
      rfl).2.1 (Or.inr rfl) rfl).2.1,
   ((c5_amended_failure_paths raise_start_behavior true init_state "boom"
      rfl).2.2.1 (Or.inr rfl) rfl).2.1,
   (c5_amended_failure_paths fail_start_behavior true init_state "boom"
      rfl).2.2.2.2.2⟩

/-- The three status values the spec allows for the monitoring state
machine. -/
def status_ok (st : TrayState) : Prop :=
  st.status = "stopped" ∨ st.status = "running" ∨ st.status = "error"

lemma status_ok_of_eq (st : TrayState) (s : String) (h : status_ok st)
    (he : s = st.status ∨ s = "stopped" ∨ s = "running" ∨ s = "error") :
    s = "stopped" ∨ s = "running" ∨ s = "error" := by
  rcases he with he | he | he | he
  · rw [he]
    exact h
  · exact Or.inl he
  · exact Or.inr (Or.inl he)
  · exact Or.inr (Or.inr he)

lemma apply_threshold_change_status (v : Option Int) (st : TrayState) :
    (apply_threshold_change v st).status = st.status := by
  rcases v with _ | n
  · simp [apply_threshold_change]
  · unfold apply_threshold_change
    dsimp only
    split
    · split <;> simp
    · simp

lemma set_preset_threshold_status (w : Int) (st : TrayState) :
    (set_preset_threshold w st).status = st.status := by
  unfold set_preset_threshold
  dsimp only
  split
  · exact apply_threshold_change_status _ _
  · rfl

lemma process_result_status (q : QueueOutcome) (st : TrayState) :
    (process_result q st).status = st.status := by
  rcases q with v | _
  · exact apply_threshold_change_status v st
  · rw [process_result, apply_threshold_change_status]
    rfl

lemma process_backlog_run_status (r : BacklogResult) (st : TrayState) :
    (process_backlog_run r st).status = st.status ∨
    (process_backlog_run r st).status = "error" := by
  rcases r with ⟨p, a, f⟩ | n | m
  · left
    unfold process_backlog_run
    dsimp only
    split
    · simp
    · split <;> simp
  · left
    unfold process_backlog_run
    dsimp only
    split <;> simp
  · right
    simp [process_backlog_run, update_status_status_forced]

lemma stop_monitoring_status (st : TrayState) :
    (stop_monitoring st).1.status = st.status ∨
    (stop_monitoring st).1.status = "stopped" := by
  unfold stop_monitoring
  split
  · right
    split <;> simp [update_status_status_forced]
  · left
    rfl

lemma start_monitoring_status (b : StartBehavior) (im : Bool)
    (st : TrayState) :
    (start_monitoring b im st).1.status = st.status ∨
    (start_monitoring b im st).1.status = "running" ∨
    (start_monitoring b im st).1.status = "error" := by
  unfold start_monitoring
  dsimp only
  split
  · exact Or.inl (resync_monitor_status st)
  · split
    · split
      · rcases start_attempt_status b im _ with h | h
        · exact Or.inr (Or.inl h)
        · exact Or.inr (Or.inr h)
      · right
        right
        simp [update_status_status_forced]
    · rcases start_attempt_status b im _ with h | h
      · exact Or.inr (Or.inl h)
      · exact Or.inr (Or.inr h)

/-- Counterexample to C6 as stated: a single tray operation takes the status
directly from "stopped" to "error" (a failed start from the freshly
initialized state), a transition outside
`stopped -> running -> stopped` and `running -> error -> stopped`. -/
theorem c6_counterexample :
    init_state.status = "stopped" ∧
    (start_monitoring fail_init_behavior true init_state).1.status
      = "error" := by
  constructor <;> rfl

/-- C6 amended: the monitoring status takes only the values "stopped",
"running" and "error" — no operation reachable from the tray control surface
sets any other value — but failure transitions may also leave "stopped"
directly (a failed start from the stopped state yields "error" without
passing through "running"). -/
theorem c6_amended_status_closure (st : TrayState) (b : StartBehavior)
    (im : Bool) (r : BacklogResult) (v : Option Int) (q : QueueOutcome)
    (w : Int) (h : status_ok st) :
    status_ok init_state ∧
    status_ok (start_monitoring b im st).1 ∧
    status_ok (stop_monitoring st).1 ∧
    status_ok (process_backlog_run r st) ∧
    status_ok (apply_threshold_change v st) ∧
    status_ok (set_preset_threshold w st) ∧
    status_ok (process_result q st) := by
  refine ⟨Or.inl rfl, ?_, ?_, ?_, ?_, ?_, ?_⟩
  · rcases start_monitoring_status b im st with h1 | h1 | h1
    · exact status_ok_of_eq st _ h (Or.inl h1)
    · exact status_ok_of_eq st _ h (Or.inr (Or.inr (Or.inl h1)))
    · exact status_ok_of_eq st _ h (Or.inr (Or.inr (Or.inr h1)))
  · rcases stop_monitoring_status st with h1 | h1
    · exact status_ok_of_eq st _ h (Or.inl h1)
    · exact status_ok_of_eq st _ h (Or.inr (Or.inl h1))
  · rcases process_backlog_run_status r st with h1 | h1
    · exact status_ok_of_eq st _ h (Or.inl h1)
    · exact status_ok_of_eq st _ h (Or.inr (Or.inr (Or.inr h1)))
  · exact status_ok_of_eq st _ h (Or.inl (apply_threshold_change_status v st))
  · exact status_ok_of_eq st _ h (Or.inl (set_preset_threshold_status w st))
  · exact status_ok_of_eq st _ h (Or.inl (process_result_status q st))

/-- Witness for C6 amended at the initial state with concrete operations. -/
theorem c6_amended_status_closure_witness :
    status_ok init_state ∧
    status_ok (start_monitoring ok_behavior true init_state).1 ∧
    status_ok (stop_monitoring init_state).1 ∧
    status_ok (process_backlog_run (BacklogResult.int 0) init_state) ∧
    status_ok (apply_threshold_change none init_state) ∧
    status_ok (set_preset_threshold 65 init_state) ∧
    status_ok (process_result QueueOutcome.timeout init_state) :=
  c6_amended_status_closure init_state ok_behavior true (BacklogResult.int 0)
    none QueueOutcome.timeout 65 (Or.inl rfl)

/-- Counterexample to C3 as stated: the custom-threshold write path performs
no range validation, so a dialog value of 150 — outside `[1,100]` — is
persisted verbatim to the settings store by `_apply_threshold_change`. -/
theorem c3_counterexample :
    (apply_threshold_change (some 150)
        init_state).settings.watch_completion_threshold = some 150 ∧
    ¬ ((1 : Int) ≤ 150 ∧ (150 : Int) ≤ 100) := by
  constructor
  · rfl
  · decide

/-- C3 amended: every preset write path persists a value in `[1,100]` (the
presets are 65, 80 and 90) and the default is 80; the custom-dialog write
path persists the dialog's value verbatim whenever it is non-`None` and
differs from the current setting, without any range validation. -/
theorem c3_amended_threshold_range (v : Int) (st : TrayState)
    (hv : v ∈ preset_threshold_values) :
    (1 ≤ v ∧ v ≤ 100) ∧ DEFAULT_THRESHOLD = 80 ∧
    ∀ w : Int, w ≠ get_setting st.settings DEFAULT_THRESHOLD →
      (apply_threshold_change (some w)
        st).settings.watch_completion_threshold = some w := by
  refine ⟨?_, rfl, ?_⟩
  · simp only [preset_threshold_values, List.mem_cons,
      List.mem_singleton, List.not_mem_nil, or_false] at hv
    rcases hv with h | h | h <;> subst h <;> exact ⟨by decide, by decide⟩
  · intro w hw
    unfold apply_threshold_change
    dsimp only
    rw [if_pos hw]
    split <;> rfl

/-- Witness for C3 amended: the preset 65 is in range, and the unvalidated
custom value 150 is persisted verbatim from the initial state. -/
theorem c3_amended_threshold_range_witness :
    ((1 : Int) ≤ 65 ∧ (65 : Int) ≤ 100) ∧ DEFAULT_THRESHOLD = 80 ∧
    (apply_threshold_change (some 150)
        init_state).settings.watch_completion_threshold = some 150 :=
  ⟨(c3_amended_threshold_range 65 init_state (by decide)).1,
   (c3_amended_threshold_range 65 init_state (by decide)).2.1,
   (c3_amended_threshold_range 65 init_state (by decide)).2.2 150 (by decide)⟩

end SimklMps
